import Mathlib

/-!
Verification of the AssemblyScript toolchain implementation
(`pkg/compute/assemblyscript.go`): a shallow embedding of its data model
and of the `Verify`, `Initialize` and `Build` routines, together with
theorems settling the specified properties.

The routines interact with an external host environment (search-path
lookups, the filesystem, subprocesses).  We model the host as a record of
response functions, and each routine as a pure function from a host to a
trace of its observable effects (progress lines written to the output
sink, subprocesses spawned, filesystem writes it performed itself) plus
its result (`none` for success, `some e` for a returned Go error).
-/

namespace Compute

/-- A Go `error` value as the toolchain produces them: either a structured
`errors.RemediationError` (carrying the internal cause and the
human-actionable remediation text) or a plain internal error with a
context message.  `errors.RemediationError` lives outside this package;
its two-field shape is taken from the spec's data model. -/
inductive GoError where
  | remediation (inner : String) (fix : String)
  | internal (msg : String)
deriving DecidableEq, Repr

/-- The remediation text of an error, when it is a RemediationError. -/
def GoError.remText : GoError → Option String
  | .remediation _ r => some r
  | .internal _ => none

/-- Whether an error is a RemediationError. -/
def GoError.isRemediation : GoError → Bool
  | .remediation _ _ => true
  | .internal _ => false

/-- A starter kit descriptor: `{Name, Path, Tag}` as in the source. -/
structure StarterKit where
  Name : String
  Path : String
  Tag : String
deriving DecidableEq, Repr

/-- The `AssemblyScript` toolchain value: an empty struct in the source. -/
structure AssemblyScript
deriving DecidableEq, Repr

/-- `AssemblyScript.Name`: the machine id of the toolchain. -/
def AssemblyScript.Name (_ : AssemblyScript) : String := "assemblyscript"

/-- `AssemblyScript.DisplayName`: the human label of the toolchain. -/
def AssemblyScript.DisplayName (_ : AssemblyScript) : String :=
  "AssemblyScript (beta)"

/-- `AssemblyScript.StarterKits`: the starter kits of the toolchain. -/
def AssemblyScript.StarterKits (_ : AssemblyScript) : List StarterKit :=
  [{ Name := "Default"
     Path := "https://github.com/fastly/compute-starter-kit-assemblyscript-default"
     Tag := "v0.1.0" }]

/-- `AssemblyScript.SourceDirectory`: the source directory of packages. -/
def AssemblyScript.SourceDirectory (_ : AssemblyScript) : String := "src"

/-- `AssemblyScript.IncludeFiles`: extra files bundled into the archive. -/
def AssemblyScript.IncludeFiles (_ : AssemblyScript) : List String :=
  ["package.json"]

/-- Modelled from the spec: `text.Bold`, the output-formatting helper from
the CLI's text package (not under src/).  Per the spec the remediation
message carries "the exact command to fix it"; the helper only emphasises
the command for display and leaves its text verbatim, so we model the
emphasis as the identity on the text. -/
def textBold (s : String) : String := s

/-- A subprocess invocation: program and argument list. -/
structure Spawn where
  cmd : String
  args : List String
deriving DecidableEq, Repr

/-- The observable effects of one routine invocation: progress lines
written to the output sink, subprocesses spawned, and filesystem writes
performed by the routine itself (subprocess-internal writes excluded). -/
structure Trace where
  lines : List String
  spawned : List Spawn
  fsWrites : List String
deriving DecidableEq, Repr

/-- The host environment's responses to the external calls the toolchain
makes: `exec.LookPath`, `filepath.Abs`, `common.FileExists`, the
start/wait outcome of the dependency-probe subprocess, the captured
output of `npm bin` (`none` models a failed `Output()` call), `os.Getwd`,
the set of existing directories, whether creating a directory succeeds,
and whether a streamed subprocess exits successfully. -/
structure Host where
  lookPath : String → Option String
  absPath : String → Option String
  fileExists : String → Bool
  probeStartOk : String → Bool
  probeWaitOk : String → Bool
  npmBinOut : Option String
  getwd : Option String
  dirs : List String
  mkdirOk : String → Bool
  runOk : String → List String → Bool

/-- `filepath.Join` for the two-component, already-clean paths used by
this file: concatenation with a separator. -/
def joinPath (a b : String) : String := a ++ "/" ++ b

/-- The dependency-probe subprocess: `npm link --json --depth 0 <name>`. -/
def depProbeSpawn (name : String) : Spawn :=
  { cmd := "npm", args := ["link", "--json", "--depth", "0", name] }

/-- The bin-directory query subprocess: `npm bin`. -/
def npmBinSpawn : Spawn := { cmd := "npm", args := ["bin"] }

/-- `strings.TrimSpace`: removes leading and trailing whitespace from the
captured subprocess output (modelled on the character list). -/
def trimSpace (s : String) : String :=
  String.mk (((s.data.dropWhile Char.isWhitespace).reverse.dropWhile
    Char.isWhitespace).reverse)

/-- `getNpmBinPath`: runs `npm bin`, captures its output and trims
surrounding whitespace; a failed command becomes a plain error with the
context message. -/
def getNpmBinPath (h : Host) : Except String String :=
  match h.npmBinOut with
  | none => .error "error getting npm bin path"
  | some out => .ok (trimSpace out)

/-- `checkPackageDependencyExists`: starts the probe subprocess and waits
for it; a failure to start and an unsuccessful exit both yield `false`,
and the function returns a plain boolean, never an error. -/
def checkPackageDependencyExists (h : Host) (name : String) : Bool :=
  if ! h.probeStartOk name then false
  else if ! h.probeWaitOk name then false
  else true

/-- The RemediationError for a missing `npm` binary (Verify step 1 and
the first check of the initialization routine). -/
def remNpmMissing : GoError :=
  .remediation "`npm` not found in $PATH"
    ("To fix this error, install Node.js and npm by visiting:\n\n\t$ " ++
      textBold "https://nodejs.org/")

/-- The RemediationError for a missing `package.json` manifest. -/
def remManifestMissing : GoError :=
  .remediation "package.json not found"
    ("To fix this error, run the following command:\n\n\t$ " ++
      textBold "npm init")

/-- The RemediationError for `assemblyscript` absent from the manifest. -/
def remDepMissing : GoError :=
  .remediation "`assemblyscript` not found in package.json"
    ("To fix this error, run the following command:\n\n\t$ " ++
      textBold "npm install --save-dev assemblyscript")

/-- The RemediationError for an unresolvable npm bin directory. -/
def remNpmBinPath : GoError :=
  .remediation "could not determine npm bin path"
    ("To fix this error, run the following command:\n\n\t$ " ++
      textBold "npm install --global npm@latest")

/-- The RemediationError for the `asc` binary absent from bin dir `p`. -/
def remAscNotFound (p : String) : GoError :=
  .remediation ("`asc` binary not found in " ++ p)
    ("To fix this error, run the following command:\n\n\t$ " ++
      textBold "npm install --save-dev assemblyscript")

/-- `AssemblyScript.Verify`: the four ordered, fail-fast checks — npm on
the search path, manifest present, compiler dependency declared, compiler
binary present in the resolved bin directory — each emitting its progress
lines and returning the source's error value on first failure. -/
def verify (h : Host) : Trace × Option GoError :=
  let out1 := ["Checking if npm is installed...\n"]
  match h.lookPath "npm" with
  | none => (⟨out1, [], []⟩, some remNpmMissing)
  | some p =>
    let out2 := out1 ++ ["Found npm at " ++ p ++ "\n"]
    match h.absPath "package.json" with
    | none => (⟨out2, [], []⟩, some (GoError.internal "getting package.json path"))
    | some fpath =>
      if ! h.fileExists fpath then
        (⟨out2, [], []⟩, some remManifestMissing)
      else
        let out3 := out2 ++ ["Found package.json at " ++ fpath ++ "\n"]
        let out4 := out3 ++ ["Checking if AssemblyScript is installed...\n"]
        let sp1 := [depProbeSpawn "assemblyscript"]
        if ! checkPackageDependencyExists h "assemblyscript" then
          (⟨out4, sp1, []⟩, some remDepMissing)
        else
          let sp2 := sp1 ++ [npmBinSpawn]
          match getNpmBinPath h with
          | .error _ => (⟨out4, sp2, []⟩, some remNpmBinPath)
          | .ok p2 =>
            match h.lookPath (joinPath p2 "asc") with
            | none => (⟨out4, sp2, []⟩, some (GoError.internal "getting asc path"))
            | some path =>
              if ! h.fileExists path then
                (⟨out4, sp2, []⟩, some (remAscNotFound p2))
              else
                (⟨out4 ++ ["Found asc at " ++ path ++ "\n"], sp2, []⟩, none)

/-- `AssemblyScript.Initialize`: repeats the first two verification
checks (npm on the search path, manifest present) with the same error
values, then streams `npm install` with no extra arguments.  The
streaming runner is external; a failing install surfaces as the plain
error the runner returned, modelled here with a fixed message. -/
def initialise (h : Host) : Trace × Option GoError :=
  let out1 := ["Checking if npm is installed...\n"]
  match h.lookPath "npm" with
  | none => (⟨out1, [], []⟩, some remNpmMissing)
  | some p =>
    let out2 := out1 ++ ["Found npm at " ++ p ++ "\n"]
    match h.absPath "package.json" with
    | none => (⟨out2, [], []⟩, some (GoError.internal "getting package.json path"))
    | some fpath =>
      if ! h.fileExists fpath then
        (⟨out2, [], []⟩, some remManifestMissing)
      else
        let out3 := out2 ++ ["Found package.json at " ++ fpath ++ "\n"]
        let sp := [Spawn.mk "npm" ["install"]]
        if h.runOk "npm" ["install"] then
          (⟨out3, sp, []⟩, none)
        else
          (⟨out3, sp, []⟩, some (GoError.internal "npm install failed"))

/-- Modelled from the spec: `common.MakeDirectoryIfNotExists` (not under
src/) ensures the directory exists — an already-existing directory is a
no-op success, an absent one is created (recorded as a filesystem write),
and only the creation attempt itself can fail. -/
def makeDirectoryIfNotExists (h : Host) (dir : String) :
    Option (Host × List String) :=
  if dir ∈ h.dirs then some (h, [])
  else if h.mkdirOk dir then some ({ h with dirs := dir :: h.dirs }, [dir])
  else none

/-- The compiler argument list `Build` constructs: entry point, output
binary path under the bin directory, optimization flag, assertion
disabling flag, and, when verbose, the verbosity flag appended last. -/
def buildArgs (binDir : String) (verbose : Bool) : List String :=
  let args := ["src/index.ts", "--binaryFile", joinPath binDir "main.wasm",
    "--optimize", "--noAssert"]
  if verbose then args ++ ["--verbose"] else args

/-- `AssemblyScript.Build`: resolves the working directory, ensures the
`bin` output directory exists, resolves the npm bin directory, and
invokes `asc` from it with the constructed argument list, streaming its
output.  Returns the possibly-updated host (directory creation) plus the
trace and result. -/
def build (h : Host) (verbose : Bool) : Host × Trace × Option GoError :=
  match h.getwd with
  | none =>
    (h, ⟨[], [], []⟩, some (GoError.internal "error getting current working directory"))
  | some pwd =>
    let binDir := joinPath pwd "bin"
    match makeDirectoryIfNotExists h binDir with
    | none => (h, ⟨[], [], []⟩, some (GoError.internal "error making bin directory"))
    | some (h1, writes) =>
      match getNpmBinPath h1 with
      | .error e => (h1, ⟨[], [npmBinSpawn], writes⟩, some (GoError.internal e))
      | .ok npmdir =>
        let args := buildArgs binDir verbose
        let asc := joinPath npmdir "asc"
        if h1.runOk asc args then
          (h1, ⟨[], [npmBinSpawn, ⟨asc, args⟩], writes⟩, none)
        else
          (h1, ⟨[], [npmBinSpawn, ⟨asc, args⟩], writes⟩,
            some (GoError.internal "asc failed"))

/-- A fully healthy host: npm on the path, manifest present, the
`assemblyscript` dependency declared, `npm bin` resolving, and the `asc`
binary present in the resolved bin directory. -/
def hostGood : Host where
  lookPath := fun s => if s = "npm" then some "/usr/bin/npm"
    else if s = "/nm/.bin/asc" then some "/nm/.bin/asc" else none
  absPath := fun s => some ("/proj/" ++ s)
  fileExists := fun s => s == "/proj/package.json" || s == "/nm/.bin/asc"
  probeStartOk := fun _ => true
  probeWaitOk := fun _ => true
  npmBinOut := some "/nm/.bin"
  getwd := some "/proj"
  dirs := []
  mkdirOk := fun _ => true
  runOk := fun _ _ => true

/-- A host with npm installed but no `package.json` anywhere. -/
def hostManifestAbsent : Host :=
  { hostGood with fileExists := fun _ => false }

/-- A host with no `npm` executable on the search path. -/
def hostNpmMissing : Host :=
  { hostGood with lookPath := fun _ => none }

/-- A host where npm, the manifest and the declared dependency are all
present and `npm bin` resolves, but the `asc` binary is absent from the
resolved bin directory: the path lookup fails and the existence probe
agrees. -/
def hostAscAbsent : Host :=
  { hostGood with
    lookPath := fun s => if s = "npm" then some "/usr/bin/npm" else none
    fileExists := fun s => s == "/proj/package.json" }

/-- A host where the dependency-probe subprocess cannot be started. -/
def hostProbeStartFails : Host :=
  { hostGood with probeStartOk := fun _ => false }

/-- A host where creating the `bin` output directory fails. -/
def hostMkdirFails : Host :=
  { hostGood with mkdirOk := fun _ => false }

/-- A host where the `npm bin` query fails. -/
def hostNoBinQuery : Host :=
  { hostGood with npmBinOut := none }

/-- Joining a directory with `main.wasm` never yields the verbosity flag:
the joined path is strictly longer than the flag. -/
theorem joinPath_ne_verbose (a : String) :
    joinPath a "main.wasm" ≠ "--verbose" := by
  intro hEq
  have hlen : (joinPath a "main.wasm").length = a.length + 10 := by
    simp only [joinPath, String.length_append]
    have hsep : ("/" : String).length = 1 := rfl
    have hwasm : ("main.wasm" : String).length = 9 := rfl
    omega
  rw [hEq] at hlen
  have h9 : ("--verbose" : String).length = 9 := rfl
  omega

/-- The verbosity flag is not among the five fixed compiler arguments. -/
theorem verbose_not_fixed (binDir : String) :
    "--verbose" ∉ ["src/index.ts", "--binaryFile",
      joinPath binDir "main.wasm", "--optimize", "--noAssert"] := by
  have hne : joinPath binDir "main.wasm" ≠ "--verbose" :=
    joinPath_ne_verbose binDir
  simp only [List.mem_cons, List.not_mem_nil, or_false]
  push_neg
  exact ⟨by decide, by decide, fun hc => hne hc.symm, by decide, by decide⟩

/-- C1: when the package manager is found but the project manifest
`package.json` does not exist, `verify` returns the RemediationError
whose remediation text is the exact manifest-initialization command
`npm init`, and no later check runs: neither the dependency-probe
subprocess nor the bin-directory query subprocess is started. -/
theorem verify_manifest_absent (h : Host) (p f : String)
    (h1 : h.lookPath "npm" = some p)
    (h2 : h.absPath "package.json" = some f)
    (h3 : h.fileExists f = false) :
    (verify h).2 = some remManifestMissing ∧
    remManifestMissing.remText =
      some ("To fix this error, run the following command:\n\n\t$ " ++
        textBold "npm init") ∧
    (verify h).1.spawned = [] := by
  refine ⟨?_, rfl, ?_⟩ <;> simp [verify, h1, h2, h3]

/-- Witness for C1 at a concrete host with npm present and no manifest. -/
theorem verify_manifest_absent_witness :
    hostManifestAbsent.lookPath "npm" = some "/usr/bin/npm" ∧
    hostManifestAbsent.absPath "package.json" = some "/proj/package.json" ∧
    hostManifestAbsent.fileExists "/proj/package.json" = false ∧
    ((verify hostManifestAbsent).2 = some remManifestMissing ∧
      remManifestMissing.remText =
        some ("To fix this error, run the following command:\n\n\t$ " ++
          textBold "npm init") ∧
      (verify hostManifestAbsent).1.spawned = []) :=
  ⟨rfl, rfl, rfl, verify_manifest_absent hostManifestAbsent "/usr/bin/npm"
    "/proj/package.json" rfl rfl rfl⟩

/-- C2: when `npm` is not on the search path, both `verify` and the
initialization routine return the RemediationError referencing the
Node.js install source, and neither performs any filesystem write (nor
starts any subprocess). -/
theorem npm_missing_remediation (h : Host)
    (h1 : h.lookPath "npm" = none) :
    (verify h).2 = some remNpmMissing ∧
    (initialise h).2 = some remNpmMissing ∧
    remNpmMissing.remText =
      some ("To fix this error, install Node.js and npm by visiting:\n\n\t$ " ++
        textBold "https://nodejs.org/") ∧
    (verify h).1.fsWrites = [] ∧ (initialise h).1.fsWrites = [] ∧
    (verify h).1.spawned = [] ∧ (initialise h).1.spawned = [] := by
  refine ⟨?_, ?_, rfl, ?_, ?_, ?_, ?_⟩ <;> simp [verify, initialise, h1]

/-- Witness for C2 at a concrete host with no npm executable. -/
theorem npm_missing_remediation_witness :
    hostNpmMissing.lookPath "npm" = none ∧
    ((verify hostNpmMissing).2 = some remNpmMissing ∧
      (initialise hostNpmMissing).2 = some remNpmMissing ∧
      remNpmMissing.remText =
        some ("To fix this error, install Node.js and npm by visiting:\n\n\t$ " ++
          textBold "https://nodejs.org/") ∧
      (verify hostNpmMissing).1.fsWrites = [] ∧
      (initialise hostNpmMissing).1.fsWrites = [] ∧
      (verify hostNpmMissing).1.spawned = [] ∧
      (initialise hostNpmMissing).1.spawned = []) :=
  ⟨rfl, npm_missing_remediation hostNpmMissing rfl⟩

/-- C6: the dependency probe returns a plain boolean and never an error:
a probe subprocess that cannot be started yields `false`, and otherwise
the answer is `true` exactly when the subprocess exits successfully. -/
theorem dependency_probe_boolean (h : Host) (name : String) :
    (h.probeStartOk name = false →
      checkPackageDependencyExists h name = false) ∧
    (h.probeStartOk name = true →
      (checkPackageDependencyExists h name = true ↔
        h.probeWaitOk name = true)) := by
  constructor
  · intro hs
    simp [checkPackageDependencyExists, hs]
  · intro hs
    cases hw : h.probeWaitOk name <;>
      simp [checkPackageDependencyExists, hs, hw]

/-- Witness for C6: a host whose probe cannot start yields `false`, and a
healthy host's probe answer tracks the probe's exit status. -/
theorem dependency_probe_boolean_witness :
    (hostProbeStartFails.probeStartOk "assemblyscript" = false ∧
      checkPackageDependencyExists hostProbeStartFails "assemblyscript" = false) ∧
    (hostGood.probeStartOk "assemblyscript" = true ∧
      (checkPackageDependencyExists hostGood "assemblyscript" = true ↔
        hostGood.probeWaitOk "assemblyscript" = true)) :=
  ⟨⟨rfl, (dependency_probe_boolean hostProbeStartFails "assemblyscript").1 rfl⟩,
    ⟨rfl, (dependency_probe_boolean hostGood "assemblyscript").2 rfl⟩⟩

/-- C10: the toolchain descriptor accessors are pure constants — `Name`,
`DisplayName`, `SourceDirectory`, `IncludeFiles` and the single starter
kit (name, repository locator, version tag) — and any two toolchain
values agree on all of them. -/
theorem toolchain_descriptor_constants (a b : AssemblyScript) :
    a.Name = "assemblyscript" ∧
    a.DisplayName = "AssemblyScript (beta)" ∧
    a.SourceDirectory = "src" ∧
    a.IncludeFiles = ["package.json"] ∧
    a.StarterKits =
      [{ Name := "Default"
         Path := "https://github.com/fastly/compute-starter-kit-assemblyscript-default"
         Tag := "v0.1.0" }] ∧
    a.StarterKits.length = 1 ∧
    a.Name = b.Name ∧ a.DisplayName = b.DisplayName ∧
    a.SourceDirectory = b.SourceDirectory ∧
    a.IncludeFiles = b.IncludeFiles ∧ a.StarterKits = b.StarterKits :=
  ⟨rfl, rfl, rfl, rfl, rfl, rfl, rfl, rfl, rfl, rfl, rfl⟩

/-- C5: for every verbosity setting, `Build`'s compiler argument list has
the fixed shape — entry point, output path `bin/main.wasm` under the bin
directory, optimization flag, assertion-disabling flag — with the
verbosity flag absent when verbose is off and present exactly once, last,
after the fixed flags, when it is on. -/
theorem build_args_shape (binDir : String) :
    (∀ v, buildArgs binDir v =
      ["src/index.ts", "--binaryFile", joinPath binDir "main.wasm",
        "--optimize", "--noAssert"] ++ (if v then ["--verbose"] else [])) ∧
    "--verbose" ∉ buildArgs binDir false ∧
    (buildArgs binDir true).count "--verbose" = 1 ∧
    (buildArgs binDir true).getLast? = some "--verbose" ∧
    (buildArgs binDir true).take 5 = buildArgs binDir false := by
  have hniv := verbose_not_fixed binDir
  refine ⟨?_, ?_, ?_, ?_, ?_⟩
  · intro v
    cases v <;> simp [buildArgs]
  · simpa [buildArgs] using hniv
  · have h0 : (["src/index.ts", "--binaryFile", joinPath binDir "main.wasm",
        "--optimize", "--noAssert"]).count "--verbose" = 0 :=
      List.count_eq_zero.mpr hniv
    have hsplit : buildArgs binDir true =
        ["src/index.ts", "--binaryFile", joinPath binDir "main.wasm",
          "--optimize", "--noAssert"] ++ ["--verbose"] := rfl
    rw [hsplit, List.count_append, h0]
    simp
  · simp [buildArgs, List.getLast?_concat]
  · have h5 : (["src/index.ts", "--binaryFile", joinPath binDir "main.wasm",
        "--optimize", "--noAssert"]).length = 5 := rfl
    simp [buildArgs, List.take_left' h5]

/-- C3 (counterexample): at a host where the bin directory resolves but
the `asc` binary is absent from it — the path lookup fails and the
existence probe agrees — `verify` returns a plain internal error, not the
install-compiler RemediationError the claim requires. -/
theorem check4_not_remediation_cex :
    getNpmBinPath hostAscAbsent = Except.ok "/nm/.bin" ∧
    hostAscAbsent.lookPath (joinPath "/nm/.bin" "asc") = none ∧
    hostAscAbsent.fileExists (joinPath "/nm/.bin" "asc") = false ∧
    (verify hostAscAbsent).2 = some (GoError.internal "getting asc path") ∧
    (verify hostAscAbsent).2.map GoError.isRemediation = some false :=
  ⟨rfl, rfl, rfl, rfl, rfl⟩

/-- C3 (amended): in the fourth check, a failure to resolve the bin
directory yields the reinstall/upgrade RemediationError; once the bin
directory resolves, a failing path lookup for the compiler binary yields
a plain internal error, and the install-compiler RemediationError is
returned exactly when the lookup succeeds yet the existence probe reports
the binary missing; the two remediation texts are distinct. -/
theorem check4_distinct_remediations (h : Host) (p f : String)
    (h1 : h.lookPath "npm" = some p)
    (h2 : h.absPath "package.json" = some f)
    (h3 : h.fileExists f = true)
    (h4 : checkPackageDependencyExists h "assemblyscript" = true) :
    (h.npmBinOut = none → (verify h).2 = some remNpmBinPath) ∧
    (∀ d, h.npmBinOut = some d →
      h.lookPath (joinPath (trimSpace d) "asc") = none →
      (verify h).2 = some (GoError.internal "getting asc path")) ∧
    (∀ d path, h.npmBinOut = some d →
      h.lookPath (joinPath (trimSpace d) "asc") = some path →
      h.fileExists path = false →
      (verify h).2 = some (remAscNotFound (trimSpace d))) ∧
    (∀ q, remNpmBinPath.remText ≠ (remAscNotFound q).remText) := by
  refine ⟨?_, ?_, ?_, ?_⟩
  · intro hb
    simp [verify, h1, h2, h3, h4, getNpmBinPath, hb]
  · intro d hb hl
    simp [verify, h1, h2, h3, h4, getNpmBinPath, hb, hl]
  · intro d path hb hl hf
    simp [verify, h1, h2, h3, h4, getNpmBinPath, hb, hl, hf]
  · intro q
    simp [remNpmBinPath, remAscNotFound, GoError.remText, textBold]

/-- Witness for the amended C3 at the host whose `asc` binary is absent. -/
theorem check4_distinct_remediations_witness :
    hostAscAbsent.lookPath "npm" = some "/usr/bin/npm" ∧
    hostAscAbsent.absPath "package.json" = some "/proj/package.json" ∧
    hostAscAbsent.fileExists "/proj/package.json" = true ∧
    checkPackageDependencyExists hostAscAbsent "assemblyscript" = true ∧
    ((hostAscAbsent.npmBinOut = none →
        (verify hostAscAbsent).2 = some remNpmBinPath) ∧
      (∀ d, hostAscAbsent.npmBinOut = some d →
        hostAscAbsent.lookPath (joinPath (trimSpace d) "asc") = none →
        (verify hostAscAbsent).2 = some (GoError.internal "getting asc path")) ∧
      (∀ d path, hostAscAbsent.npmBinOut = some d →
        hostAscAbsent.lookPath (joinPath (trimSpace d) "asc") = some path →
        hostAscAbsent.fileExists path = false →
        (verify hostAscAbsent).2 = some (remAscNotFound (trimSpace d))) ∧
      (∀ q, remNpmBinPath.remText ≠ (remAscNotFound q).remText)) :=
  ⟨rfl, rfl, rfl, rfl, check4_distinct_remediations hostAscAbsent
    "/usr/bin/npm" "/proj/package.json" rfl rfl rfl rfl⟩

/-- C4 (counterexample): at a fully healthy host `verify` succeeds but
emits five progress lines, not the four the claim states. -/
theorem verify_four_lines_cex :
    (verify hostGood).2 = none ∧
    (verify hostGood).1.lines.length = 5 ∧
    (verify hostGood).1.lines.length ≠ 4 :=
  ⟨rfl, rfl, by decide⟩

/-- C4 (amended): when the package manager, the manifest, the compiler
dependency and the compiler binary are all present, `verify` returns no
error and emits exactly five progress lines in the documented check
order — the first check emits both its checking line and its found
line. -/
theorem verify_success_five_lines (h : Host) (p f d path : String)
    (h1 : h.lookPath "npm" = some p)
    (h2 : h.absPath "package.json" = some f)
    (h3 : h.fileExists f = true)
    (h4 : checkPackageDependencyExists h "assemblyscript" = true)
    (h5 : h.npmBinOut = some d)
    (h6 : h.lookPath (joinPath (trimSpace d) "asc") = some path)
    (h7 : h.fileExists path = true) :
    (verify h).2 = none ∧
    (verify h).1.lines =
      ["Checking if npm is installed...\n",
        "Found npm at " ++ p ++ "\n",
        "Found package.json at " ++ f ++ "\n",
        "Checking if AssemblyScript is installed...\n",
        "Found asc at " ++ path ++ "\n"] ∧
    (verify h).1.lines.length = 5 := by
  refine ⟨?_, ?_, ?_⟩ <;>
    simp [verify, h1, h2, h3, h4, getNpmBinPath, h5, h6, h7]

/-- Witness for the amended C4 at the fully healthy host. -/
theorem verify_success_five_lines_witness :
    hostGood.lookPath "npm" = some "/usr/bin/npm" ∧
    hostGood.absPath "package.json" = some "/proj/package.json" ∧
    hostGood.fileExists "/proj/package.json" = true ∧
    checkPackageDependencyExists hostGood "assemblyscript" = true ∧
    hostGood.npmBinOut = some "/nm/.bin" ∧
    hostGood.lookPath (joinPath (trimSpace "/nm/.bin") "asc") =
      some "/nm/.bin/asc" ∧
    hostGood.fileExists "/nm/.bin/asc" = true ∧
    ((verify hostGood).2 = none ∧
      (verify hostGood).1.lines =
        ["Checking if npm is installed...\n",
          "Found npm at /usr/bin/npm\n",
          "Found package.json at /proj/package.json\n",
          "Checking if AssemblyScript is installed...\n",
          "Found asc at /nm/.bin/asc\n"] ∧
      (verify hostGood).1.lines.length = 5) :=
  ⟨rfl, rfl, rfl, rfl, rfl, rfl, rfl, verify_success_five_lines hostGood
    "/usr/bin/npm" "/proj/package.json" "/nm/.bin" "/nm/.bin/asc"
    rfl rfl rfl rfl rfl rfl rfl⟩

/-- C7: in `build`, a failure to create the output directory and a
failure to resolve the npm bin directory both surface as plain internal
errors with their context messages; indeed every error `build` returns is
internal, never a RemediationError. -/
theorem build_plain_errors (h : Host) (v : Bool) (pwd : String)
    (hg : h.getwd = some pwd) :
    (joinPath pwd "bin" ∉ h.dirs →
      h.mkdirOk (joinPath pwd "bin") = false →
      (build h v).2.2 = some (GoError.internal "error making bin directory")) ∧
    (h.mkdirOk (joinPath pwd "bin") = true → h.npmBinOut = none →
      (build h v).2.2 = some (GoError.internal "error getting npm bin path")) ∧
    (∀ e, (build h v).2.2 = some e → e.isRemediation = false) := by
  refine ⟨?_, ?_, ?_⟩
  · intro hc hm
    simp [build, hg, makeDirectoryIfNotExists, hc, hm]
  · intro hm hb
    by_cases hcd : joinPath pwd "bin" ∈ h.dirs <;>
      simp [build, hg, makeDirectoryIfNotExists, hcd, hm, getNpmBinPath, hb]
  · intro e
    cases hgw : h.getwd with
    | none =>
      simp [build, hgw]
      rintro rfl
      rfl
    | some pwd2 =>
      cases hmd : makeDirectoryIfNotExists h (joinPath pwd2 "bin") with
      | none =>
        simp [build, hgw, hmd]
        rintro rfl
        rfl
      | some pair =>
        obtain ⟨h1, w⟩ := pair
        cases hnb : getNpmBinPath h1 with
        | error msg =>
          simp [build, hgw, hmd, hnb]
          rintro rfl
          rfl
        | ok npmdir =>
          cases hrun : h1.runOk (joinPath npmdir "asc")
              (buildArgs (joinPath pwd2 "bin") v) with
          | false =>
            simp [build, hgw, hmd, hnb, hrun]
            rintro rfl
            rfl
          | true =>
            simp [build, hgw, hmd, hnb, hrun]

/-- Witness for C7: directory creation failing and the bin query failing
at concrete hosts, both yielding the respective internal error. -/
theorem build_plain_errors_witness :
    hostMkdirFails.getwd = some "/proj" ∧
    joinPath "/proj" "bin" ∉ hostMkdirFails.dirs ∧
    hostMkdirFails.mkdirOk (joinPath "/proj" "bin") = false ∧
    (build hostMkdirFails false).2.2 =
      some (GoError.internal "error making bin directory") ∧
    hostNoBinQuery.getwd = some "/proj" ∧
    hostNoBinQuery.mkdirOk (joinPath "/proj" "bin") = true ∧
    hostNoBinQuery.npmBinOut = none ∧
    (build hostNoBinQuery false).2.2 =
      some (GoError.internal "error getting npm bin path") :=
  ⟨rfl, by decide, rfl,
    (build_plain_errors hostMkdirFails false "/proj" rfl).1 (by decide) rfl,
    rfl, rfl, rfl,
    (build_plain_errors hostNoBinQuery false "/proj" rfl).2.1 rfl rfl⟩

/-- C8: `build` is idempotent — run twice on the same inputs it succeeds
both times, spawns the identical compiler invocation targeting the fixed
output path `bin/main.wasm` both times, and creates the output directory
at most once (the second run does not fail because it already exists). -/
theorem build_idempotent (h : Host) (v : Bool) (pwd d : String)
    (hg : h.getwd = some pwd)
    (hb : h.npmBinOut = some d)
    (hmk : h.mkdirOk (joinPath pwd "bin") = true)
    (hrun : h.runOk (joinPath (trimSpace d) "asc")
      (buildArgs (joinPath pwd "bin") v) = true) :
    (build h v).2.2 = none ∧
    (build (build h v).1 v).2.2 = none ∧
    (build h v).2.1.spawned =
      [npmBinSpawn,
        ⟨joinPath (trimSpace d) "asc", buildArgs (joinPath pwd "bin") v⟩] ∧
    (build (build h v).1 v).2.1.spawned = (build h v).2.1.spawned ∧
    joinPath (joinPath pwd "bin") "main.wasm" ∈
      buildArgs (joinPath pwd "bin") v ∧
    ((build h v).2.1.fsWrites ++
      (build (build h v).1 v).2.1.fsWrites).length ≤ 1 := by
  have hmem : joinPath (joinPath pwd "bin") "main.wasm" ∈
      buildArgs (joinPath pwd "bin") v := by
    cases v <;> simp [buildArgs]
  by_cases hcd : joinPath pwd "bin" ∈ h.dirs
  · refine ⟨?_, ?_, ?_, ?_, hmem, ?_⟩ <;>
      simp [build, makeDirectoryIfNotExists, getNpmBinPath,
        hg, hb, hmk, hcd, hrun]
  · refine ⟨?_, ?_, ?_, ?_, hmem, ?_⟩ <;>
      simp [build, makeDirectoryIfNotExists, getNpmBinPath,
        hg, hb, hmk, hcd, hrun]

/-- Witness for C8 at the fully healthy host. -/
theorem build_idempotent_witness :
    hostGood.getwd = some "/proj" ∧
    hostGood.npmBinOut = some "/nm/.bin" ∧
    hostGood.mkdirOk (joinPath "/proj" "bin") = true ∧
    hostGood.runOk (joinPath (trimSpace "/nm/.bin") "asc")
      (buildArgs (joinPath "/proj" "bin") false) = true ∧
    ((build hostGood false).2.2 = none ∧
      (build (build hostGood false).1 false).2.2 = none ∧
      (build hostGood false).2.1.spawned =
        [npmBinSpawn, ⟨joinPath (trimSpace "/nm/.bin") "asc",
          buildArgs (joinPath "/proj" "bin") false⟩] ∧
      (build (build hostGood false).1 false).2.1.spawned =
        (build hostGood false).2.1.spawned ∧
      joinPath (joinPath "/proj" "bin") "main.wasm" ∈
        buildArgs (joinPath "/proj" "bin") false ∧
      ((build hostGood false).2.1.fsWrites ++
        (build (build hostGood false).1 false).2.1.fsWrites).length ≤ 1) :=
  ⟨rfl, rfl, rfl, rfl, build_idempotent hostGood false "/proj" "/nm/.bin"
    rfl rfl rfl rfl⟩

/-- C9: the initialization routine's first two checks coincide with
`verify`'s first two checks on every host — the same RemediationError for
a missing npm, the same internal error for a failed manifest path
resolution, the same RemediationError for a missing manifest — and when
both checks pass it spawns exactly the package manager's `install`
subcommand with no extra arguments and performs no filesystem write. -/
theorem initialise_refines_verify (h : Host) :
    (h.lookPath "npm" = none →
      (initialise h).2 = some remNpmMissing ∧
      (verify h).2 = some remNpmMissing) ∧
    (∀ p, h.lookPath "npm" = some p → h.absPath "package.json" = none →
      (initialise h).2 = some (GoError.internal "getting package.json path") ∧
      (verify h).2 = some (GoError.internal "getting package.json path")) ∧
    (∀ p f, h.lookPath "npm" = some p → h.absPath "package.json" = some f →
      h.fileExists f = false →
      (initialise h).2 = some remManifestMissing ∧
      (verify h).2 = some remManifestMissing) ∧
    (∀ p f, h.lookPath "npm" = some p → h.absPath "package.json" = some f →
      h.fileExists f = true →
      (initialise h).1.spawned = [Spawn.mk "npm" ["install"]] ∧
      (initialise h).1.fsWrites = [] ∧
      (initialise h).1.lines =
        ["Checking if npm is installed...\n",
          "Found npm at " ++ p ++ "\n",
          "Found package.json at " ++ f ++ "\n"]) := by
  refine ⟨?_, ?_, ?_, ?_⟩
  · intro h1
    constructor <;> simp [initialise, verify, h1]
  · intro p h1 h2
    constructor <;> simp [initialise, verify, h1, h2]
  · intro p f h1 h2 h3
    constructor <;> simp [initialise, verify, h1, h2, h3]
  · intro p f h1 h2 h3
    cases hr : h.runOk "npm" ["install"] <;>
      simp [initialise, h1, h2, h3, hr]

/-- Witness for C9: the missing-npm case and the successful-check case at
concrete hosts. -/
theorem initialise_refines_verify_witness :
    hostNpmMissing.lookPath "npm" = none ∧
    ((initialise hostNpmMissing).2 = some remNpmMissing ∧
      (verify hostNpmMissing).2 = some remNpmMissing) ∧
    hostGood.lookPath "npm" = some "/usr/bin/npm" ∧
    hostGood.absPath "package.json" = some "/proj/package.json" ∧
    hostGood.fileExists "/proj/package.json" = true ∧
    ((initialise hostGood).1.spawned = [Spawn.mk "npm" ["install"]] ∧
      (initialise hostGood).1.fsWrites = [] ∧
      (initialise hostGood).1.lines =
        ["Checking if npm is installed...\n",
          "Found npm at /usr/bin/npm\n",
          "Found package.json at /proj/package.json\n"]) :=
  ⟨rfl, (initialise_refines_verify hostNpmMissing).1 rfl,
    rfl, rfl, rfl,
    (initialise_refines_verify hostGood).2.2.2 "/usr/bin/npm"
      "/proj/package.json" rfl rfl rfl⟩

end Compute
